import Mathlib

/-!
Verification development for the realtor_agent pipeline in
src/realtor_agent/api.py: the fetch, merge, derive, filter, sort,
persist pipeline and the latest-artifact read path, shallowly embedded.

Modelling decisions, all taken from the source:
  - Numeric listing fields are rationals (standing in for Python floats);
    daysOnZillow is an integer, as in the provider schema and the pydantic
    Filter model.
  - The derived column price_per_sqft is an extended value: dividing by a
    zero livingArea yields a non-finite value (inf, -inf, or nan for 0/0)
    exactly as pandas / numpy division does, instead of raising.
  - A pandas DataFrame is a column-name list plus a row list.  Column
    existence is data-dependent: json_normalize of an empty props array has
    no columns at all, and indexing a missing column raises KeyError.
    Attribute access on a missing column (df.price) raises as well; both
    abort the request identically, so a single keyError case models both.
  - sort_values on daysOnZillow uses the default kind quicksort, whose
    documented contract is an ascending permutation with tie order left
    unspecified (pandas documents only mergesort and stable as stable
    kinds).  The sort routine is therefore a pipeline parameter
    constrained only by that contract (SortsByDays), like the provider is
    for the network.  The boolean keep mask is computed on the pre-sort
    frame and applied with .loc after sorting; since pandas aligns the
    mask by row index and the mask value of a row depends only on the
    fields of that row, this equals filtering the sorted rows by the
    row-wise predicate.
  - The network, clock and filesystem are passed explicitly: the provider
    is a function from region and polygon to a fetch outcome, today is a
    string, storage is a map from path to stored rows, and the write may
    fail (writeOk), modelling a to_csv error.
-/

namespace Realtor

/-- Extended numeric value: a finite rational, an infinity, or nan.
Models the result type of a pandas column division. -/
inductive XVal where
  | fin : ℚ → XVal
  | posInf : XVal
  | negInf : XVal
  | nan : XVal
deriving DecidableEq, Repr

/-- Column division as pandas performs it on df.price / df.livingArea: a
zero divisor yields inf, -inf or nan (for 0/0) rather than raising. -/
def fdiv (p a : ℚ) : XVal :=
  if a = 0 then (if 0 < p then .posInf else if p < 0 then .negInf else .nan)
  else .fin (p / a)

/-- Whether an extended value is finite. -/
def XVal.isFinite : XVal → Bool
  | .fin _ => true
  | _ => false

/-- One listing object from the provider response props array, before the
fetcher stamps the region.  providerRegion is a region-like field the
provider may itself include; the fetcher overwrites it. -/
structure RawProp where
  address : String
  providerRegion : Option String
  price : ℚ
  livingArea : ℚ
  lotAreaValue : ℚ
  bathrooms : ℚ
  bedrooms : ℚ
  daysOnZillow : ℤ
deriving DecidableEq, Repr

/-- A normalized listing record after fetch_region_df assigned the region
column. -/
structure Listing where
  address : String
  region : String
  price : ℚ
  livingArea : ℚ
  lotAreaValue : ℚ
  bathrooms : ℚ
  bedrooms : ℚ
  daysOnZillow : ℤ
deriving DecidableEq, Repr

/-- A listing record with the derived price_per_sqft column. -/
structure DRow extends Listing where
  price_per_sqft : XVal
deriving DecidableEq, Repr

/-- A pandas DataFrame: an ordered list of column names and a list of
typed rows.  Column presence is tracked separately from the row type
because pandas derives columns from the data: a frame built from zero
records has no columns even though the row type always carries every
field. -/
structure Frame (ρ : Type) where
  cols : List String
  rows : List ρ
deriving DecidableEq, Repr

/-- The pydantic Filter model: four numeric bounds with defaults, and no
cross-field validation. -/
structure Filter where
  min_price : ℚ := 1700000
  max_price : ℚ := 2000000
  min_lot_area : ℚ := 4000
  max_days_on_zillow : ℤ := 30
deriving DecidableEq, Repr

/-- The south_bay boundary polygon. -/
def southBayPolygon : String :=
  "-122.0391782 37.3736352, -122.0221832 37.3651435, -122.0105527 37.3586118, -121.9963486 37.3535791, -121.9694627 37.353144, -121.9703847 37.3606217, -121.9654699 37.3693281, -121.9962624 37.3703931, -122.0196293 37.3753218, -122.013429 37.3927996, -122.0309814 37.3969251, -122.0391782 37.3736352"

/-- The bandao boundary polygon. -/
def bandaoPolygon : String :=
  "-122.2955382 37.5290471, -122.3054946 37.5208785, -122.2476447 37.4593133, -122.2255004 37.4708947, -122.2955382 37.5290471"

/-- REGION_POLYGON_MAP: the configured region table, in iteration order. -/
def REGION_POLYGON_MAP : List (String × String) :=
  [("south_bay", southBayPolygon), ("bandao", bandaoPolygon)]

/-- How a single provider request can fail: non-success HTTP status
(raise_for_status), the 30-second timeout, or a body that cannot be
parsed as a props array of listing objects. -/
inductive FetchFailure where
  | httpError : Nat → String → FetchFailure
  | timeout : FetchFailure
  | parseError : String → FetchFailure
deriving DecidableEq, Repr

/-- Errors that abort run_analysis: a fetch failure from one region, or a
missing-column error (KeyError or AttributeError in the Python code; both
abort the request identically). -/
inductive RunErr where
  | fetch : FetchFailure → RunErr
  | keyError : String → RunErr
deriving DecidableEq, Repr

/-- The environment side of requests.get against the provider: given a
region and its polygon, either a fetch failure or the parsed props
array. -/
def Provider : Type := String → String → Except FetchFailure (List RawProp)

/-- Columns json_normalize produces from a non-empty props array, in
provider key order. -/
def rawCols : List String :=
  ["address", "price", "livingArea", "lotAreaValue",
   "bathrooms", "bedrooms", "daysOnZillow"]

/-- The fetcher output record: the provider fields with the region column
set to the supplied region identifier, overwriting any region-like value
the provider returned. -/
def stampRow (region : String) (p : RawProp) : Listing :=
  { address := p.address
    region := region
    price := p.price
    livingArea := p.livingArea
    lotAreaValue := p.lotAreaValue
    bathrooms := p.bathrooms
    bedrooms := p.bedrooms
    daysOnZillow := p.daysOnZillow }

/-- fetch_region_df: one provider request, json_normalize of the props
array, then the region column assignment.  json_normalize of an empty
array yields a frame with no columns; assigning the region column then
creates that single column. -/
def fetch_region_df (provider : Provider) (region polygon : String) :
    Except RunErr (Frame Listing) :=
  match provider region polygon with
  | .error f => .error (.fetch f)
  | .ok props =>
      .ok { cols := (if props.isEmpty then [] else rawCols) ++ ["region"]
            rows := props.map (stampRow region) }

/-- Union of column lists preserving first-seen order, as pd.concat
computes the combined column set. -/
def unionCols (a b : List String) : List String :=
  a ++ b.filter (fun c => ¬ c ∈ a)

/-- Sequentially run a fallible function over a list, failing on the
first error: the list comprehension building dfs. -/
def mapExcept (f : α → Except ε β) : List α → Except ε (List β)
  | [] => .ok []
  | a :: l =>
      match f a with
      | .error e => .error e
      | .ok b =>
          match mapExcept f l with
          | .error e => .error e
          | .ok bs => .ok (b :: bs)

/-- The dfs list: fetch_region_df once per entry of REGION_POLYGON_MAP,
in iteration order; the whole collection fails on any fetch failure. -/
def fetchedFrames (provider : Provider) : Except RunErr (List (Frame Listing)) :=
  mapExcept (fun rp => fetch_region_df provider rp.1 rp.2) REGION_POLYGON_MAP

/-- pd.concat with ignore_index: rows appended in list order, columns the
first-seen-order union. -/
def concatFrames (fs : List (Frame Listing)) : Frame Listing :=
  { cols := fs.foldl (fun acc f => unionCols acc f.cols) []
    rows := (fs.map Frame.rows).flatten }

/-- The concatenated frame of a run, or the first fetch error. -/
def concatDf (provider : Provider) : Except RunErr (Frame Listing) :=
  match fetchedFrames provider with
  | .error e => .error e
  | .ok dfs => .ok (concatFrames dfs)

/-- The derived record: the listing plus price_per_sqft computed from that
record's own price and livingArea. -/
def deriveRow (l : Listing) : DRow :=
  { toListing := l, price_per_sqft := fdiv l.price l.livingArea }

/-- The derivation line: df.price divided by df.livingArea, assigned as
the new price_per_sqft column.  Indexing df with a missing column raises
KeyError (price is evaluated first). -/
def derive (df : Frame Listing) : Except RunErr (Frame DRow) :=
  if ("price") ∈ df.cols then
    if ("livingArea") ∈ df.cols then
      .ok { cols := df.cols ++ ["price_per_sqft"]
            rows := df.rows.map deriveRow }
    else .error (.keyError ("livingArea"))
  else .error (.keyError ("price"))

/-- The keep mask of one row: price between min_price and max_price
(inclusive on both ends, as Series.between defaults), lotAreaValue
strictly above min_lot_area, daysOnZillow strictly below
max_days_on_zillow. -/
def keep (filt : Filter) (r : DRow) : Bool :=
  (decide (filt.min_price ≤ r.price) && decide (r.price ≤ filt.max_price))
    && decide (filt.min_lot_area < r.lotAreaValue)
    && decide (r.daysOnZillow < filt.max_days_on_zillow)

/-- The ascending comparison on daysOnZillow used by sort_values. -/
def daysLe (a b : DRow) : Prop := a.daysOnZillow ≤ b.daysOnZillow

instance : DecidableRel daysLe := fun a b =>
  inferInstanceAs (Decidable (a.daysOnZillow ≤ b.daysOnZillow))

instance : IsTotal DRow daysLe := ⟨fun _ _ => Int.le_total _ _⟩

instance : IsTrans DRow daysLe := ⟨fun _ _ _ h h2 => le_trans h h2⟩

/-- The contract numpy documents for the argsort behind sort_values with
the default kind quicksort: the result is an ascending permutation of
the input.  The relative order of tied rows is NOT part of that contract
(pandas documents only the mergesort and stable kinds as stable), so the
sorting routine is passed into the pipeline as a parameter constrained
only by this predicate, exactly as the network is passed in as the
provider. -/
def SortsByDays (s : List DRow → List DRow) : Prop :=
  ∀ l, (s l).Pairwise daysLe ∧ (s l).Perm l

/-- One implementation satisfying the sort contract: a stable insertion
sort, which keeps tied rows in input order. -/
def insertionSortByDays (l : List DRow) : List DRow := l.insertionSort daysLe

/-- Another implementation satisfying the sort contract: stable-sorting
the reversed input, which reverses the relative order of tied rows. -/
def reverseInsertionSortByDays (l : List DRow) : List DRow :=
  l.reverse.insertionSort daysLe

/-- The output column set of the .loc projection. -/
def outCols : List String :=
  ["address", "region", "price", "livingArea", "lotAreaValue",
   "bathrooms", "bedrooms", "daysOnZillow", "price_per_sqft"]

/-- run_analysis: collect all regions, concatenate, derive price_per_sqft,
build the keep mask, then sort by daysOnZillow and project the kept rows
onto the output columns.  The mask accesses price, lotAreaValue and
daysOnZillow by attribute and the .loc projection names the output
columns; a missing column at any of these points aborts the run.  The
sort_values call delegates to the numpy sort routine, taken here as the
sortImpl parameter; theorems that depend on the sorted order assume only
its documented contract, SortsByDays. -/
def run_analysis (provider : Provider) (sortImpl : List DRow → List DRow)
    (filt : Filter) : Except RunErr (Frame DRow) :=
  match concatDf provider with
  | .error e => .error e
  | .ok df =>
      match derive df with
      | .error e => .error e
      | .ok ddf =>
          if ("price") ∈ ddf.cols then
            if ("lotAreaValue") ∈ ddf.cols then
              if ("daysOnZillow") ∈ ddf.cols then
                if outCols.all (fun c => decide (c ∈ ddf.cols)) then
                  .ok { cols := outCols
                        rows := (sortImpl ddf.rows).filter (keep filt) }
                else .error (.keyError ("columns"))
              else .error (.keyError ("daysOnZillow"))
            else .error (.keyError ("lotAreaValue"))
          else .error (.keyError ("price"))

/-- A human-readable detail string for an error, as str(e) in the except
clause. -/
def errDetail : RunErr → String
  | .fetch (.httpError _ m) => m
  | .fetch .timeout => "request timed out"
  | .fetch (.parseError m) => m
  | .keyError c => c

/-- The process-wide mutable state: the latest_csv pointer (None at
startup) and the data directory contents, a map from file path to the
rows stored there.  Files persist across process lifetimes, so the
initial storage is arbitrary. -/
structure ServerState where
  latest : Option String
  storage : String → Option (List DRow)

/-- An HTTP response: the JSON row list of a successful call, or an
HTTPException with a status code and detail. -/
inductive Resp where
  | rows : List DRow → Resp
  | err : Nat → String → Resp
deriving DecidableEq, Repr

/-- The HTTP status code of a response (200 for a row payload). -/
def Resp.code : Resp → Nat
  | .rows _ => 200
  | .err c _ => c

/-- The dated artifact path DATA_PATH / real_results_today.csv. -/
def csvPath (today : String) : String :=
  "data/real_results_" ++ today ++ ".csv"

/-- The POST run-analysis endpoint.  In source order: run_analysis; then
the global latest_csv is assigned the new dated path; then df.to_csv
writes the file (writeOk tells whether the write succeeds); then the rows
are returned as JSON.  Any exception is caught and returned as a 500; the
assignment to latest_csv is not rolled back. -/
def run_analysis_endpoint (provider : Provider)
    (sortImpl : List DRow → List DRow) (writeOk : Bool)
    (today : String) (filt : Filter) (st : ServerState) :
    Resp × ServerState :=
  match run_analysis provider sortImpl filt with
  | .error e => (.err 500 (errDetail e), st)
  | .ok df =>
      let p := csvPath today
      let st1 : ServerState := { st with latest := some p }
      if writeOk then
        (.rows df.rows,
         { st1 with storage := fun q => if q = p then some df.rows else st1.storage q })
      else
        (.err 500 ("to_csv failed"), st1)

/-- The GET data endpoint: if latest_csv is set and the file exists, read
it back and return its rows; otherwise a 404.  It consults only the
pointer and storage and never invokes the fetcher. -/
def get_latest_data (st : ServerState) : Resp × ServerState :=
  match st.latest with
  | some p =>
      match st.storage p with
      | some rs => (.rows rs, st)
      | none => (.err 404 ("Run the analysis first."), st)
  | none => (.err 404 ("Run the analysis first."), st)

/-! Concrete fixtures: the two-region scenario of the spec, one listing
per region, used to instantiate theorems at explicit inputs. -/

/-- A south_bay listing: price 1800000, livingArea 2000, lotAreaValue
5000, daysOnZillow 10. -/
def sampleProp1 : RawProp :=
  { address := "addr1", providerRegion := none, price := 1800000,
    livingArea := 2000, lotAreaValue := 5000, bathrooms := 2,
    bedrooms := 3, daysOnZillow := 10 }

/-- A bandao listing: price 1900000, livingArea 1900, lotAreaValue 3000,
daysOnZillow 5; the provider also returns its own region-like value. -/
def sampleProp2 : RawProp :=
  { address := "addr2", providerRegion := some ("provider_region"),
    price := 1900000, livingArea := 1900, lotAreaValue := 3000,
    bathrooms := 2, bedrooms := 3, daysOnZillow := 5 }

/-- A provider that answers every region request successfully with one
listing. -/
def sampleProvider : Provider := fun r _ =>
  if r = "south_bay" then .ok [sampleProp1] else .ok [sampleProp2]

/-- The stamped south_bay record. -/
def sampleListing1 : Listing := stampRow ("south_bay") sampleProp1

/-- The stamped bandao record. -/
def sampleListing2 : Listing := stampRow ("bandao") sampleProp2

/-- The frame fetched for south_bay. -/
def sampleFrame1 : Frame Listing :=
  { cols := rawCols ++ ["region"], rows := [sampleListing1] }

/-- The frame fetched for bandao. -/
def sampleFrame2 : Frame Listing :=
  { cols := rawCols ++ ["region"], rows := [sampleListing2] }

/-- The concatenated frame of the sample run. -/
def sampleConcat : Frame Listing :=
  { cols := rawCols ++ ["region"], rows := [sampleListing1, sampleListing2] }

/-- The derived frame of the sample run. -/
def sampleDerived : Frame DRow :=
  { cols := (rawCols ++ ["region"]) ++ ["price_per_sqft"]
    rows := [deriveRow sampleListing1, deriveRow sampleListing2] }

/-- The output of the sample run under the default filter: the bandao row
is dropped (lotAreaValue 3000 is not above 4000), the south_bay row is
kept with price_per_sqft 900. -/
def sampleOut : Frame DRow :=
  { cols := outCols, rows := [deriveRow sampleListing1] }

/-- A provider whose every request succeeds with an empty props array. -/
def emptyProvider : Provider := fun _ _ => .ok []

/-- A filter configuration whose min_price exceeds its max_price; the
other bounds keep their defaults. -/
def invertedFilter : Filter := { min_price := 2000000, max_price := 1700000 }

/-- An output frame with no rows. -/
def emptyOut : Frame DRow := { cols := outCols, rows := [] }

/-- A south_bay listing passing the default filter with daysOnZillow 7. -/
def tiedPropA : RawProp :=
  { address := "addrA", providerRegion := none, price := 1800000,
    livingArea := 2000, lotAreaValue := 5000, bathrooms := 2,
    bedrooms := 3, daysOnZillow := 7 }

/-- A bandao listing passing the default filter with the same
daysOnZillow 7, so the two kept rows are tied under the sort key. -/
def tiedPropB : RawProp :=
  { address := "addrB", providerRegion := none, price := 1900000,
    livingArea := 1900, lotAreaValue := 6000, bathrooms := 2,
    bedrooms := 3, daysOnZillow := 7 }

/-- A provider whose two regions return one listing each, tied on
daysOnZillow and both satisfying the default filter. -/
def tiedProvider : Provider := fun r _ =>
  if r = "south_bay" then .ok [tiedPropA] else .ok [tiedPropB]

/-- The derived south_bay row of the tied run. -/
def tiedRowA : DRow := deriveRow (stampRow ("south_bay") tiedPropA)

/-- The derived bandao row of the tied run. -/
def tiedRowB : DRow := deriveRow (stampRow ("bandao") tiedPropB)

/-- A provider for which exactly one configured region (bandao) fails,
with a timeout, while the other succeeds. -/
def failingProvider : Provider := fun r _ =>
  if r = "bandao" then .error .timeout else .ok [sampleProp1]

/-- A fresh process state: latest pointer unset, empty data directory. -/
def freshState : ServerState :=
  { latest := none, storage := fun _ => none }

/-- A process state whose pointer refers to an artifact written by an
earlier run. -/
def cexState : ServerState :=
  { latest := some ("data/old.csv"), storage := fun _ => none }

/-- A fresh process state whose data directory already holds an artifact
under the dated path for 2026-10-12, left behind by a previous process
lifetime (the data directory persists across restarts). -/
def preexistingState : ServerState :=
  { latest := none
    storage := fun q =>
      if q = csvPath ("2026-10-12") then some sampleOut.rows else none }

/-! Theorems. -/

/-- The stable insertion sort satisfies the documented sort contract. -/
theorem insertionSortByDays_sorts : SortsByDays insertionSortByDays := by
  intro l
  exact ⟨List.sorted_insertionSort daysLe l, List.perm_insertionSort daysLe l⟩

/-- The tie-reversing sort also satisfies the documented sort contract. -/
theorem reverseInsertionSortByDays_sorts : SortsByDays reverseInsertionSortByDays := by
  intro l
  exact ⟨List.sorted_insertionSort daysLe l.reverse,
    (List.perm_insertionSort daysLe l.reverse).trans (List.reverse_perm l)⟩

/-- Unfolding lemma: on a successful run, the output rows are the sorted
derived rows restricted to the keep mask. -/
theorem run_rows_eq (provider : Provider) (sortImpl : List DRow → List DRow)
    (filt : Filter)
    (df : Frame Listing) (ddf : Frame DRow) (out : Frame DRow)
    (hc : concatDf provider = .ok df) (hd : derive df = .ok ddf)
    (hr : run_analysis provider sortImpl filt = .ok out) :
    out.rows = (sortImpl ddf.rows).filter (keep filt) := by
  unfold run_analysis at hr
  simp only [hc, hd] at hr
  repeat' split at hr
  all_goals first
    | (injection hr with h; exact congrArg Frame.rows h.symm)
    | exact Except.noConfusion hr

/-- Claim C1: a record is kept in the output iff min_price and max_price
bound its price inclusively, its lotAreaValue strictly exceeds
min_lot_area, and its daysOnZillow is strictly below the day bound; a
record with price equal to max_price (and the other conditions met) is
kept, one with lotAreaValue equal to min_lot_area is dropped, and one
with daysOnZillow equal to the day bound is dropped. -/
theorem filter_keeps_iff (provider : Provider)
    (sortImpl : List DRow → List DRow) (filt : Filter)
    (df : Frame Listing) (ddf : Frame DRow) (out : Frame DRow)
    (hs : SortsByDays sortImpl)
    (hc : concatDf provider = .ok df) (hd : derive df = .ok ddf)
    (hr : run_analysis provider sortImpl filt = .ok out) :
    (∀ r : DRow, r ∈ out.rows ↔
      r ∈ ddf.rows ∧ (filt.min_price ≤ r.price ∧ r.price ≤ filt.max_price)
        ∧ filt.min_lot_area < r.lotAreaValue
        ∧ r.daysOnZillow < filt.max_days_on_zillow)
    ∧ (∀ r : DRow, r.price = filt.max_price → filt.min_price ≤ r.price →
        filt.min_lot_area < r.lotAreaValue →
        r.daysOnZillow < filt.max_days_on_zillow → keep filt r = true)
    ∧ (∀ r : DRow, r.lotAreaValue = filt.min_lot_area → keep filt r = false)
    ∧ (∀ r : DRow, r.daysOnZillow = filt.max_days_on_zillow → keep filt r = false) := by
  have hout := run_rows_eq provider sortImpl filt df ddf out hc hd hr
  refine ⟨?_, ?_, ?_, ?_⟩
  · intro r
    rw [hout, List.mem_filter, (hs ddf.rows).2.mem_iff]
    simp only [keep, Bool.and_eq_true, decide_eq_true_eq]
    tauto
  · intro r h1 h2 h3 h4
    simp only [keep, Bool.and_eq_true, decide_eq_true_eq]
    exact ⟨⟨⟨h2, le_of_eq h1⟩, h3⟩, h4⟩
  · intro r h1
    simp [keep, h1]
  · intro r h1
    simp [keep, h1]

/-- Witness for C1 at the sample run. -/
theorem filter_keeps_iff_witness :
    SortsByDays insertionSortByDays
    ∧ (concatDf sampleProvider = .ok sampleConcat)
    ∧ (derive sampleConcat = .ok sampleDerived)
    ∧ (run_analysis sampleProvider insertionSortByDays {} = .ok sampleOut)
    ∧ ((∀ r : DRow, r ∈ sampleOut.rows ↔
          r ∈ sampleDerived.rows
            ∧ ((1700000 : ℚ) ≤ r.price ∧ r.price ≤ (2000000 : ℚ))
            ∧ (4000 : ℚ) < r.lotAreaValue ∧ r.daysOnZillow < (30 : ℤ))
        ∧ (∀ r : DRow, r.price = (2000000 : ℚ) → (1700000 : ℚ) ≤ r.price →
            (4000 : ℚ) < r.lotAreaValue → r.daysOnZillow < (30 : ℤ) →
            keep {} r = true)
        ∧ (∀ r : DRow, r.lotAreaValue = (4000 : ℚ) → keep {} r = false)
        ∧ (∀ r : DRow, r.daysOnZillow = (30 : ℤ) → keep {} r = false)) :=
  ⟨insertionSortByDays_sorts, rfl, rfl, rfl,
   filter_keeps_iff sampleProvider insertionSortByDays {} sampleConcat
     sampleDerived sampleOut insertionSortByDays_sorts rfl rfl rfl⟩

/-- Claim C3: the ascending-order and concatenation-order parts hold, but
the tie-break part is not a property the program provides.  The sort
behind sort_values runs with the default kind quicksort, whose documented
contract fixes only that the result is an ascending permutation; pandas
documents that kind as not stable.  This theorem evaluates the pipeline
at a failing input, two kept rows tied on daysOnZillow: two sort
implementations that both satisfy the documented contract drive the same
run to two different outputs, one in concatenation order and one in the
reverse, so the claimed tie order is not determined by the code.  The
spec explicitly demands stable tie-breaking, so the code (which would
need kind stable) is the slip. -/
theorem sort_tie_order_unspecified :
    SortsByDays insertionSortByDays
    ∧ SortsByDays reverseInsertionSortByDays
    ∧ tiedRowA.daysOnZillow = tiedRowB.daysOnZillow
    ∧ tiedRowA ≠ tiedRowB
    ∧ run_analysis tiedProvider insertionSortByDays {}
        = .ok { cols := outCols, rows := [tiedRowA, tiedRowB] }
    ∧ run_analysis tiedProvider reverseInsertionSortByDays {}
        = .ok { cols := outCols, rows := [tiedRowB, tiedRowA] }
    ∧ run_analysis tiedProvider insertionSortByDays {}
        ≠ run_analysis tiedProvider reverseInsertionSortByDays {} := by
  refine ⟨insertionSortByDays_sorts, reverseInsertionSortByDays_sorts,
    rfl, by decide, rfl, rfl, ?_⟩
  have ha : run_analysis tiedProvider insertionSortByDays {}
      = .ok { cols := outCols, rows := [tiedRowA, tiedRowB] } := rfl
  have hb : run_analysis tiedProvider reverseInsertionSortByDays {}
      = .ok { cols := outCols, rows := [tiedRowB, tiedRowA] } := rfl
  rw [ha, hb]
  intro hcontra
  injection hcontra with h
  have := congrArg Frame.rows h
  simp only at this
  injection this with h1
  exact absurd h1 (by decide)

/-- Division by a zero livingArea always yields a non-finite value. -/
theorem fdiv_zero_not_finite (p : ℚ) : (fdiv p 0).isFinite = false := by
  unfold fdiv
  rw [if_pos rfl]
  split
  · rfl
  · split <;> rfl

/-- Claim C5: every record of the concatenated dataset gets
price_per_sqft equal to its own price divided by its own livingArea; a
record with livingArea zero still gets a (non-finite) value, is still
present in the derived frame and is kept or dropped by the other fields
alone; and the derivation step never fails once its two input columns
exist, so a zero livingArea cannot crash the run. -/
theorem derive_price_per_area (provider : Provider)
    (sortImpl : List DRow → List DRow) (filt : Filter)
    (df : Frame Listing) (ddf : Frame DRow) (out : Frame DRow)
    (hs : SortsByDays sortImpl)
    (hc : concatDf provider = .ok df) (hd : derive df = .ok ddf)
    (hr : run_analysis provider sortImpl filt = .ok out) :
    ddf.rows = df.rows.map deriveRow
    ∧ (∀ l ∈ df.rows, deriveRow l ∈ ddf.rows
        ∧ (deriveRow l).price_per_sqft = fdiv l.price l.livingArea)
    ∧ (∀ r ∈ ddf.rows, r.price_per_sqft = fdiv r.price r.livingArea)
    ∧ (∀ r ∈ ddf.rows, r.livingArea = 0 → r.price_per_sqft.isFinite = false)
    ∧ (∀ r ∈ ddf.rows, (r ∈ out.rows ↔ keep filt r = true))
    ∧ (∀ dfx : Frame Listing, ("price") ∈ dfx.cols → ("livingArea") ∈ dfx.cols →
        ∃ ddfx, derive dfx = .ok ddfx) := by
  have hout := run_rows_eq provider sortImpl filt df ddf out hc hd hr
  have hrows : ddf.rows = df.rows.map deriveRow := by
    unfold derive at hd
    split at hd
    · split at hd
      · injection hd with h
        exact congrArg Frame.rows h.symm
      · exact Except.noConfusion hd
    · exact Except.noConfusion hd
  have hform : ∀ r ∈ ddf.rows, r.price_per_sqft = fdiv r.price r.livingArea := by
    intro r hrmem
    rw [hrows] at hrmem
    obtain ⟨l, _, rfl⟩ := List.mem_map.mp hrmem
    rfl
  refine ⟨hrows, ?_, hform, ?_, ?_, ?_⟩
  · intro l hl
    exact ⟨hrows ▸ List.mem_map_of_mem deriveRow hl, rfl⟩
  · intro r hrmem hzero
    rw [hform r hrmem, hzero]
    exact fdiv_zero_not_finite r.price
  · intro r hrmem
    rw [hout, List.mem_filter]
    have : r ∈ sortImpl ddf.rows := (hs ddf.rows).2.mem_iff.mpr hrmem
    tauto
  · intro dfx h1 h2
    exact ⟨{ cols := dfx.cols ++ ["price_per_sqft"], rows := dfx.rows.map deriveRow },
      by simp [derive, h1, h2]⟩

/-- Witness for C5 at the sample run. -/
theorem derive_price_per_area_witness :
    SortsByDays insertionSortByDays
    ∧ concatDf sampleProvider = .ok sampleConcat
    ∧ derive sampleConcat = .ok sampleDerived
    ∧ run_analysis sampleProvider insertionSortByDays {} = .ok sampleOut
    ∧ (sampleDerived.rows = sampleConcat.rows.map deriveRow
       ∧ (∀ l ∈ sampleConcat.rows, deriveRow l ∈ sampleDerived.rows
           ∧ (deriveRow l).price_per_sqft = fdiv l.price l.livingArea)
       ∧ (∀ r ∈ sampleDerived.rows, r.price_per_sqft = fdiv r.price r.livingArea)
       ∧ (∀ r ∈ sampleDerived.rows, r.livingArea = 0 →
            r.price_per_sqft.isFinite = false)
       ∧ (∀ r ∈ sampleDerived.rows, (r ∈ sampleOut.rows ↔ keep {} r = true))
       ∧ (∀ dfx : Frame Listing, ("price") ∈ dfx.cols → ("livingArea") ∈ dfx.cols →
            ∃ ddfx, derive dfx = .ok ddfx)) :=
  ⟨insertionSortByDays_sorts, rfl, rfl, rfl,
   derive_price_per_area sampleProvider insertionSortByDays {} sampleConcat
     sampleDerived sampleOut insertionSortByDays_sorts rfl rfl rfl⟩

/-- Claim C8: every record returned by the fetcher carries the region
identifier under which the request was issued: the rows are exactly the
provider records passed through stampRow, stampRow sets region to the
supplied identifier unconditionally (discarding any provider region-like
value), and hence every fetched row has that region. -/
theorem fetch_stamps_region (provider : Provider) (region polygon : String)
    (props : List RawProp) (f : Frame Listing)
    (hp : provider region polygon = .ok props)
    (hf : fetch_region_df provider region polygon = .ok f) :
    f.rows = props.map (stampRow region)
    ∧ (∀ l ∈ f.rows, l.region = region)
    ∧ (∀ p ∈ props, stampRow region p ∈ f.rows)
    ∧ (∀ p : RawProp, ∀ s : Option String,
        stampRow region { p with providerRegion := s } = stampRow region p) := by
  unfold fetch_region_df at hf
  rw [hp] at hf
  injection hf with h
  subst h
  refine ⟨rfl, ?_, ?_, ?_⟩
  · intro l hl
    obtain ⟨p, _, rfl⟩ := List.mem_map.mp hl
    rfl
  · intro p hp2
    exact List.mem_map_of_mem _ hp2
  · intro p s
    rfl

/-- Witness for C8 at the sample bandao fetch, where the provider record
itself carries a region-like value that the stamp overwrites. -/
theorem fetch_stamps_region_witness :
    sampleProvider ("bandao") bandaoPolygon = .ok [sampleProp2]
    ∧ fetch_region_df sampleProvider ("bandao") bandaoPolygon = .ok sampleFrame2
    ∧ (sampleFrame2.rows = [sampleProp2].map (stampRow ("bandao"))
       ∧ (∀ l ∈ sampleFrame2.rows, l.region = "bandao")
       ∧ (∀ p ∈ [sampleProp2], stampRow ("bandao") p ∈ sampleFrame2.rows)
       ∧ (∀ p : RawProp, ∀ s : Option String,
            stampRow ("bandao") { p with providerRegion := s } = stampRow ("bandao") p)) :=
  ⟨rfl, rfl,
   fetch_stamps_region sampleProvider ("bandao") bandaoPolygon [sampleProp2]
     sampleFrame2 rfl rfl⟩

/-- Claim C9: a filter with min_price above max_price is representable
with no further validation, and any successful run under it returns an
empty row set, since no price can satisfy both inclusive bounds. -/
theorem min_gt_max_empty (provider : Provider)
    (sortImpl : List DRow → List DRow) (filt : Filter) (out : Frame DRow)
    (hlt : filt.max_price < filt.min_price)
    (hr : run_analysis provider sortImpl filt = .ok out) :
    out.rows = [] := by
  have hr' := hr
  unfold run_analysis at hr'
  cases hconc : concatDf provider with
  | error e => rw [hconc] at hr'; exact Except.noConfusion hr'
  | ok df =>
      cases hder : derive df with
      | error e =>
          rw [hconc] at hr'
          simp only [hder] at hr'
          exact Except.noConfusion hr'
      | ok ddf =>
          have hout := run_rows_eq provider sortImpl filt df ddf out hconc hder hr
          rw [hout, List.filter_eq_nil_iff]
          intro a _
          simp only [keep, Bool.and_eq_true, decide_eq_true_eq]
          rintro ⟨⟨⟨h1, h2⟩, _⟩, _⟩
          exact absurd (h1.trans h2) (not_le.mpr hlt)

/-- Witness for C9: the inverted configuration on the sample provider
yields a successful run with zero rows. -/
theorem min_gt_max_empty_witness :
    invertedFilter.max_price < invertedFilter.min_price
    ∧ run_analysis sampleProvider insertionSortByDays invertedFilter = .ok emptyOut
    ∧ emptyOut.rows = [] :=
  ⟨by decide, rfl,
   min_gt_max_empty sampleProvider insertionSortByDays invertedFilter emptyOut
     (by decide) rfl⟩

/-- Claim C10: when every configured region fetch succeeds with an empty
props array, the concatenated frame has no data-derived columns, so the
derivation step fails with a KeyError on the price column instead of
returning an empty result set. -/
theorem empty_props_keyerror (provider : Provider)
    (sortImpl : List DRow → List DRow) (filt : Filter)
    (h : ∀ rp ∈ REGION_POLYGON_MAP, provider rp.1 rp.2 = .ok []) :
    run_analysis provider sortImpl filt = .error (.keyError ("price")) := by
  have h1 := h ("south_bay", southBayPolygon) (by simp [REGION_POLYGON_MAP])
  have h2 := h ("bandao", bandaoPolygon) (by simp [REGION_POLYGON_MAP])
  simp [run_analysis, concatDf, fetchedFrames, REGION_POLYGON_MAP, mapExcept,
    fetch_region_df, h1, h2, concatFrames, unionCols, derive]

/-- Witness for C10: the all-empty provider makes the run fail with the
price KeyError. -/
theorem empty_props_keyerror_witness :
    (∀ rp ∈ REGION_POLYGON_MAP, emptyProvider rp.1 rp.2 = .ok [])
    ∧ run_analysis emptyProvider insertionSortByDays {}
        = .error (.keyError ("price")) := by
  have h : ∀ rp ∈ REGION_POLYGON_MAP, emptyProvider rp.1 rp.2 = .ok [] := by
    intro rp _
    rfl
  exact ⟨h, empty_props_keyerror emptyProvider insertionSortByDays {} h⟩

/-- Claim C2 is false of the code: the endpoint assigns latest_csv the
new dated path before df.to_csv runs, so when the write fails the request
aborts with a 500 but the pointer no longer holds its pre-run value. -/
theorem pointer_write_failure_cex :
    cexState.latest = some ("data/old.csv")
    ∧ (run_analysis_endpoint sampleProvider insertionSortByDays false ("2026-10-12") {} cexState).1.code
        = 500
    ∧ (run_analysis_endpoint sampleProvider insertionSortByDays false ("2026-10-12") {} cexState).2.latest
        = some (csvPath ("2026-10-12"))
    ∧ (run_analysis_endpoint sampleProvider insertionSortByDays false ("2026-10-12") {} cexState).2.latest
        ≠ cexState.latest := by
  refine ⟨rfl, rfl, rfl, ?_⟩
  have h3 : (run_analysis_endpoint sampleProvider insertionSortByDays false ("2026-10-12") {} cexState).2.latest
      = some (csvPath ("2026-10-12")) := rfl
  rw [h3]
  decide

/-- Claim C2 as amended: once the analysis itself succeeds, the latest
pointer is set to the new dated path whether or not the persistence write
succeeds; a failed write aborts the request with a 500 but leaves the
pointer on the new path, and only a successful write stores the rows. -/
theorem pointer_set_before_write (provider : Provider)
    (sortImpl : List DRow → List DRow) (writeOk : Bool)
    (today : String) (filt : Filter) (st : ServerState) (df : Frame DRow)
    (hr : run_analysis provider sortImpl filt = .ok df) :
    (run_analysis_endpoint provider sortImpl writeOk today filt st).2.latest
      = some (csvPath today)
    ∧ (writeOk = false →
        run_analysis_endpoint provider sortImpl writeOk today filt st
          = (.err 500 ("to_csv failed"), { st with latest := some (csvPath today) }))
    ∧ (writeOk = true →
        run_analysis_endpoint provider sortImpl writeOk today filt st
          = (.rows df.rows,
             { latest := some (csvPath today)
               storage := fun q =>
                 if q = csvPath today then some df.rows else st.storage q })) := by
  unfold run_analysis_endpoint
  rw [hr]
  cases writeOk <;> simp

/-- Witness for the amended C2: on the sample run with a failing write,
the pointer moves to the new dated path. -/
theorem pointer_set_before_write_witness :
    run_analysis sampleProvider insertionSortByDays {} = .ok sampleOut
    ∧ (run_analysis_endpoint sampleProvider insertionSortByDays false ("2026-10-12") {} freshState).2.latest
        = some (csvPath ("2026-10-12")) :=
  ⟨rfl,
   (pointer_set_before_write sampleProvider insertionSortByDays false ("2026-10-12")
     {} freshState sampleOut rfl).1⟩

/-- Claim C4: a fetch failure in any one configured region makes the run
endpoint answer 500 and leave the whole process state unchanged: no
artifact is written and the latest pointer keeps its pre-run value. -/
theorem fetch_failure_aborts (provider : Provider)
    (sortImpl : List DRow → List DRow) (writeOk : Bool)
    (today : String) (filt : Filter) (st : ServerState)
    (rp : String × String) (fe : FetchFailure)
    (hmem : rp ∈ REGION_POLYGON_MAP)
    (hfail : provider rp.1 rp.2 = .error fe) :
    (run_analysis_endpoint provider sortImpl writeOk today filt st).1.code = 500
    ∧ (run_analysis_endpoint provider sortImpl writeOk today filt st).2 = st := by
  have hrun : ∃ e, run_analysis provider sortImpl filt = .error e := by
    simp only [REGION_POLYGON_MAP, List.mem_cons, List.mem_singleton,
      List.not_mem_nil, or_false] at hmem
    rcases hmem with rfl | rfl
    · have hfail' : provider ("south_bay") southBayPolygon = .error fe := hfail
      refine ⟨.fetch fe, ?_⟩
      simp [run_analysis, concatDf, fetchedFrames, REGION_POLYGON_MAP,
        mapExcept, fetch_region_df, hfail']
    · have hfail' : provider ("bandao") bandaoPolygon = .error fe := hfail
      cases hfetch1 : provider ("south_bay") southBayPolygon with
      | error f1 =>
          refine ⟨.fetch f1, ?_⟩
          simp [run_analysis, concatDf, fetchedFrames, REGION_POLYGON_MAP,
            mapExcept, fetch_region_df, hfetch1]
      | ok props =>
          refine ⟨.fetch fe, ?_⟩
          simp [run_analysis, concatDf, fetchedFrames, REGION_POLYGON_MAP,
            mapExcept, fetch_region_df, hfetch1, hfail']
  obtain ⟨e, he⟩ := hrun
  constructor <;> simp [run_analysis_endpoint, he, Resp.code]

/-- Witness for C4: the provider that times out on bandao aborts the run
with no state change. -/
theorem fetch_failure_aborts_witness :
    ("bandao", bandaoPolygon) ∈ REGION_POLYGON_MAP
    ∧ failingProvider ("bandao") bandaoPolygon = .error .timeout
    ∧ (run_analysis_endpoint failingProvider insertionSortByDays true ("2026-10-12") {} cexState).1.code
        = 500
    ∧ (run_analysis_endpoint failingProvider insertionSortByDays true ("2026-10-12") {} cexState).2
        = cexState := by
  have hmem : ("bandao", bandaoPolygon) ∈ REGION_POLYGON_MAP := by
    simp [REGION_POLYGON_MAP]
  have h := fetch_failure_aborts failingProvider insertionSortByDays true
    ("2026-10-12") {} cexState ("bandao", bandaoPolygon) .timeout hmem rfl
  exact ⟨hmem, rfl, h.1, h.2⟩

/-- Claim C6: a successful run answers with its result rows, and the read
path invoked on the resulting state returns exactly those rows again:
persistence round-trips the result unchanged. -/
theorem run_then_load_roundtrip (provider : Provider)
    (sortImpl : List DRow → List DRow) (today : String)
    (filt : Filter) (st : ServerState) (df : Frame DRow)
    (hr : run_analysis provider sortImpl filt = .ok df) :
    (run_analysis_endpoint provider sortImpl true today filt st).1 = .rows df.rows
    ∧ get_latest_data (run_analysis_endpoint provider sortImpl true today filt st).2
        = (.rows df.rows,
           (run_analysis_endpoint provider sortImpl true today filt st).2) := by
  unfold run_analysis_endpoint
  rw [hr]
  simp [get_latest_data]

/-- Witness for C6 at the sample run on a fresh process state. -/
theorem run_then_load_roundtrip_witness :
    run_analysis sampleProvider insertionSortByDays {} = .ok sampleOut
    ∧ (run_analysis_endpoint sampleProvider insertionSortByDays true ("2026-10-12") {} freshState).1
        = .rows sampleOut.rows
    ∧ get_latest_data
        (run_analysis_endpoint sampleProvider insertionSortByDays true ("2026-10-12") {} freshState).2
        = (.rows sampleOut.rows,
           (run_analysis_endpoint sampleProvider insertionSortByDays true ("2026-10-12") {} freshState).2) :=
  ⟨rfl,
   (run_then_load_roundtrip sampleProvider insertionSortByDays ("2026-10-12") {}
     freshState sampleOut rfl).1,
   (run_then_load_roundtrip sampleProvider insertionSortByDays ("2026-10-12") {}
     freshState sampleOut rfl).2⟩

/-- Claim C7 is false of the code: a run whose persistence write fails
still sets the latest pointer, and if the data directory already holds an
artifact at that dated path from a previous process lifetime, the read
path serves those rows even though no run has ever succeeded in this
process lifetime, where the claim demands NotFound. -/
theorem load_latest_notfound_cex :
    preexistingState.latest = none
    ∧ (run_analysis_endpoint sampleProvider insertionSortByDays false ("2026-10-12") {} preexistingState).1.code
        = 500
    ∧ (get_latest_data
        (run_analysis_endpoint sampleProvider insertionSortByDays false ("2026-10-12") {} preexistingState).2).1
        = .rows sampleOut.rows := by
  exact ⟨rfl, rfl, rfl⟩

/-- Claim C7 as amended: the read path returns NotFound exactly when the
latest pointer is unset or the referenced artifact is absent from
storage, and it consults only the pointer and storage, leaving the state
unchanged and never fetching; pointer-unset is not equivalent to no run
having succeeded, since failed-write runs also set the pointer. -/
theorem load_latest_notfound_iff (st : ServerState) :
    ((get_latest_data st).1.code = 404 ↔ st.latest.bind st.storage = none)
    ∧ (get_latest_data st).2 = st := by
  unfold get_latest_data
  cases hl : st.latest with
  | none => simp [Resp.code]
  | some p =>
      cases hs : st.storage p with
      | none => simp [Resp.code, hs]
      | some rs => simp [Resp.code, hs]

end Realtor
